import Mathlib

/-!
  # Room Occupancy & Booking Ledger — shallow embedding

  A shallow embedding of the consistency core of the hostel-management
  backend: the Room ledger (occupancy counters and status), the booking
  routes that drive it, and the review rating rollup.  Each definition is
  translated from the JavaScript source it names; document stores are
  modelled as association lists inside an explicit state record, and each
  HTTP handler becomes a function from that state to `Except Err` of the
  updated state.  Definitions keep the source's structure: guards appear in
  source order, and Mongoose's `pre("save")` hook is a final gate
  (`saveRoom`) on every path that persists a room, while
  `findByIdAndUpdate`-based routes bypass it, exactly as Mongoose does.
-/

namespace Hostel

/-- `Room.status` enum of `roomSchema` (`part_002`). -/
inductive RoomStatus
  | available
  | occupied
  | maintenance
  deriving DecidableEq

/-- `Booking.status` enum of `bookingSchema` (`part_005`). -/
inductive BookingStatus
  | confirmed
  | checkedIn
  | checkedOut
  | cancelled
  deriving DecidableEq

/-- `Review.status` enum of `reviewSchema` (`part_002`). -/
inductive ReviewStatus
  | pending
  | approved
  | rejected
  deriving DecidableEq

/-- Error kinds of the spec's taxonomy, as surfaced by the route handlers:
each constructor stands for one of the distinct error messages / status
codes the source produces. -/
inductive Err
  | notFound
  | unavailable
  | capacity
  | conflict
  | validationError
  | invalidState
  | invariantViolation
  deriving DecidableEq

/-- The six optional per-category ratings of `reviewSchema.categories`;
`0` is the schema default, meaning "unset". -/
structure Categories where
  cleanliness : Int
  comfort : Int
  location : Int
  facilities : Int
  staff : Int
  valueForMoney : Int
  deriving DecidableEq

/-- `categoryAverages` as the aggregation in `getRoomRatingSummary`
produces it.  The pipeline accumulates `$avg` over a *document* expression
(`{ cleanliness: "$categories.cleanliness", … }`); MongoDB's `$avg` ignores
non-numeric values and returns `null` when every value was non-numeric, so
a non-empty review set yields `null` (`nullV`), while the no-reviews branch
of the JS function returns the empty object `{}` (`objV []`). -/
inductive CatAvgs
  | nullV
  | objV (entries : List (String × Rat))
  deriving DecidableEq

/-- The summary object returned by `reviewSchema.statics.getRoomRatingSummary`:
`averageRating`, `totalReviews`, the per-star counts of `ratingDistribution`
(keys 1–5), and `categoryAverages`. -/
structure RatingSummary where
  averageRating : Rat
  totalReviews : Nat
  dist1 : Nat
  dist2 : Nat
  dist3 : Nat
  dist4 : Nat
  dist5 : Nat
  categoryAverages : CatAvgs
  deriving DecidableEq

/-- The zero-valued summary returned when a room has no approved reviews. -/
def zeroSummary : RatingSummary :=
  { averageRating := 0, totalReviews := 0
    dist1 := 0, dist2 := 0, dist3 := 0, dist4 := 0, dist5 := 0
    categoryAverages := .objV [] }

/-- A `Room` document (`roomSchema`, `part_002`): capacity, occupancy,
status, price, and the derived rating fields written by the rollup. -/
structure Room where
  capacity : Int
  currentOccupancy : Int
  status : RoomStatus
  price : Int
  rating : Rat := 0
  totalReviews : Nat := 0
  ratingSummary : RatingSummary := zeroSummary
  deriving DecidableEq

/-- A `Booking` document (`bookingSchema`, `part_005`).  Identifiers are
modelled as `Nat`; dates as milliseconds since the epoch. -/
structure Booking where
  id : Nat
  student : Nat
  room : Nat
  checkInDate : Int
  checkOutDate : Int
  duration : Int
  totalAmount : Int
  status : BookingStatus := .confirmed
  deriving DecidableEq

/-- A `Review` document (`reviewSchema`, `part_002`). -/
structure Review where
  id : Nat
  student : Nat
  room : Nat
  booking : Nat
  rating : Int
  title : String
  comment : String
  categories : Categories := ⟨0, 0, 0, 0, 0, 0⟩
  isVerified : Bool := false
  status : ReviewStatus := .pending
  deriving DecidableEq

/-- The persistent store: the collections the consistency core touches.
Students are reduced to their identifiers (the booking routes only test
existence); rooms are keyed by identifier. -/
structure HState where
  students : List Nat
  rooms : List (Nat × Room)
  bookings : List Booking
  reviews : List Review
  deriving DecidableEq

/-- `Room.findById`. -/
def findRoom (s : HState) (id : Nat) : Option Room :=
  (s.rooms.find? (fun p => p.1 == id)).map (fun p => p.2)

/-- Write back a room document under its identifier. -/
def setRoom (s : HState) (id : Nat) (r : Room) : HState :=
  { s with rooms := s.rooms.map (fun p => if p.1 == id then (p.1, r) else p) }

/-- `roomSchema.pre("save")` (`part_002`, lines 116–121): persisting a room
whose `currentOccupancy` exceeds `capacity` is rejected with
`"Room occupancy cannot exceed capacity"`. -/
def saveRoom (r : Room) : Except Err Room :=
  if r.currentOccupancy > r.capacity then .error .invariantViolation
  else .ok r

/-- `checkRoomAvailability` (`routes/students.js` booking section,
lines 194–213): absent room → `"Room not found"`; status other than
`available` → `"Room is not available"`; `currentOccupancy >= capacity` →
`"Room is already at full capacity"`. -/
def checkRoomAvailability (room? : Option Room) : Except Err Room :=
  match room? with
  | none => .error .notFound
  | some room =>
    if room.status ≠ RoomStatus.available then .error .unavailable
    else if room.currentOccupancy ≥ room.capacity then .error .capacity
    else .ok room

/-- The occupancy increment of `POST /api/bookings` (lines 267–272):
`currentOccupancy += 1`; if it now equals `capacity`, `status = "occupied"`;
then `room.save()` (which runs the pre-save guard). -/
def incrementRoomOccupancy (room : Room) : Except Err Room :=
  let occ := room.currentOccupancy + 1
  saveRoom { room with
    currentOccupancy := occ
    status := if occ = room.capacity then .occupied else room.status }

/-- The room check-and-increment performed by booking creation:
`checkRoomAvailability` followed by the occupancy increment and save.
This is the spec's `reserveSlot` as realised on the booking path. -/
def bookingReserve (room? : Option Room) : Except Err Room :=
  match checkRoomAvailability room? with
  | .error e => .error e
  | .ok room => incrementRoomOccupancy room

/-- `PATCH /api/rooms/:id/occupancy` (`routes/rooms.js`, lines 186–239),
room-level part: the `increase` branch checks only the capacity bound (no
status check) before incrementing; the `decrease` branch rejects at zero,
then decrements and sets `status = "available"` whenever the new occupancy
is below capacity; any other action string is rejected; the mutated room is
persisted through `room.save()`. -/
def occupancyPatch (room? : Option Room) (action : String) : Except Err Room :=
  match room? with
  | none => .error .notFound
  | some room =>
    if action = "increase" then
      if room.currentOccupancy ≥ room.capacity then .error .capacity
      else
        let occ := room.currentOccupancy + 1
        saveRoom { room with
          currentOccupancy := occ
          status := if occ = room.capacity then .occupied else room.status }
    else if action = "decrease" then
      if room.currentOccupancy ≤ 0 then .error .invalidState
      else
        let occ := room.currentOccupancy - 1
        saveRoom { room with
          currentOccupancy := occ
          status := if occ < room.capacity then .available else room.status }
    else .error .validationError

/-- `PATCH /api/rooms/:id/occupancy` at the state level: look the room up,
run the room-level patch, write the result back. -/
def patchOccupancyRoute (s : HState) (id : Nat) (action : String) :
    Except Err HState :=
  match occupancyPatch (findRoom s id) action with
  | .error e => .error e
  | .ok r => .ok (setRoom s id r)

/-- The room release of `DELETE /api/bookings/:id` (lines 406–418):
`currentOccupancy = Math.max(0, currentOccupancy - 1)`; if the new
occupancy is below capacity, `status = "available"` (unconditionally — the
previous status, `maintenance` included, is overwritten); then
`room.save()`. -/
def releaseOnDelete (room : Room) : Except Err Room :=
  let occ := max 0 (room.currentOccupancy - 1)
  saveRoom { room with
    currentOccupancy := occ
    status := if occ < room.capacity then .available else room.status }

/-- Whether a booking counts as active (`status` in
`["confirmed", "checked-in"]`). -/
def isActive (b : Booking) : Bool :=
  b.status == .confirmed || b.status == .checkedIn

/-- `DELETE /api/bookings/:id` (lines 397–426): absent booking → 404;
if the booking is active and its room exists, release one slot on the room
(persisting through `room.save()`); finally remove the booking. -/
def deleteBooking (s : HState) (id : Nat) : Except Err HState :=
  match s.bookings.find? (fun b => b.id == id) with
  | none => .error .notFound
  | some b =>
    let afterRoom : Except Err HState :=
      if isActive b then
        match findRoom s b.room with
        | none => .ok s
        | some room =>
          match releaseOnDelete room with
          | .error e => .error e
          | .ok room' => .ok (setRoom s b.room room')
      else .ok s
    match afterRoom with
    | .error e => .error e
    | .ok s' => .ok { s' with bookings := s'.bookings.filter (fun b => b.id ≠ id) }

/-- `1000 * 60 * 60 * 24 * 30`: the milliseconds in a 30-day month used by
`calculateDuration`. -/
def msPerMonth : Nat := 1000 * 60 * 60 * 24 * 30

/-- `calculateDuration` (`routes/students.js` booking section, lines
155–161): `Math.ceil(|checkOut - checkIn| / msPerMonth)`, the ceiling of
the stay length in 30-day months. -/
def calculateDuration (checkInDate checkOutDate : Int) : Int :=
  Int.ofNat (((checkOutDate - checkInDate).natAbs + (msPerMonth - 1)) / msPerMonth)

/-- `validateBookingDates` (lines 163–183): check-in before today, or
check-out not after check-in, or a duration above 12 months, are rejected. -/
def validateBookingDates (today checkInDate checkOutDate : Int) : Except Err Unit :=
  if checkInDate < today then .error .validationError
  else if checkOutDate ≤ checkInDate then .error .validationError
  else if calculateDuration checkInDate checkOutDate > 12 then .error .validationError
  else .ok ()

/-- JavaScript `x || y` defaulting on an optional numeric field: an absent
value *and* a supplied `0` (falsy) both fall back to the computed value. -/
def jsOr (x : Option Int) (y : Int) : Int :=
  match x with
  | some v => if v = 0 then y else v
  | none => y

/-- The request body of `POST /api/bookings`: the six fields the handler
destructures, plus the `status` a caller could smuggle in through the
`...req.body` spread (the schema default `confirmed` applies when absent). -/
structure BookingRequest where
  student : Option Nat
  room : Option Nat
  checkInDate : Option Int
  checkOutDate : Option Int
  duration : Option Int := none
  totalAmount : Option Int := none
  bodyStatus : Option BookingStatus := none

/-- `POST /api/bookings` (lines 216–292), the transaction body: validate
required fields and dates, confirm the student exists, run
`checkRoomAvailability`, reject a second active booking for the student,
default `duration` and `totalAmount` with `||`, create the booking, then
increment the room occupancy and save it; commit yields the new state. -/
def createBooking (s : HState) (today : Int) (req : BookingRequest)
    (newId : Nat) : Except Err (HState × Booking) :=
  match req.student, req.room, req.checkInDate, req.checkOutDate with
  | some student, some room, some checkInDate, some checkOutDate =>
    match validateBookingDates today checkInDate checkOutDate with
    | .error e => .error e
    | .ok _ =>
      if s.students.contains student then
        match checkRoomAvailability (findRoom s room) with
        | .error e => .error e
        | .ok roomExists =>
          match s.bookings.find? (fun b => b.student == student && isActive b) with
          | some _ => .error .conflict
          | none =>
            let calculatedDuration :=
              jsOr req.duration (calculateDuration checkInDate checkOutDate)
            let calculatedTotalAmount :=
              jsOr req.totalAmount (roomExists.price * calculatedDuration)
            let booking : Booking :=
              { id := newId, student := student, room := room
                checkInDate := checkInDate, checkOutDate := checkOutDate
                duration := calculatedDuration, totalAmount := calculatedTotalAmount
                status := req.bodyStatus.getD .confirmed }
            match incrementRoomOccupancy roomExists with
            | .error e => .error e
            | .ok updatedRoom =>
              .ok ({ setRoom s room updatedRoom with
                      bookings := s.bookings ++ [booking] }, booking)
      else .error .notFound
  | _, _, _, _ => .error .validationError

/-- The update body of `PUT /api/bookings/:id`: the booking fields a caller
may set (each optional, applied only when present, as
`findByIdAndUpdate(id, req.body)` does). -/
structure BookingUpdate where
  status : Option BookingStatus := none
  duration : Option Int := none
  totalAmount : Option Int := none

/-- Apply a `findByIdAndUpdate` body to a booking document. -/
def applyBookingUpdate (b : Booking) (u : BookingUpdate) : Booking :=
  { b with
    status := u.status.getD b.status
    duration := u.duration.getD b.duration
    totalAmount := u.totalAmount.getD b.totalAmount }

/-- `PUT /api/bookings/:id` (lines 377–394): a bare
`Booking.findByIdAndUpdate` — absent booking → 404, otherwise the body is
applied to the booking document.  No status-transition check is performed
and no room document is read or written. -/
def putBooking (s : HState) (id : Nat) (u : BookingUpdate) :
    Except Err (HState × Booking) :=
  match s.bookings.find? (fun b => b.id == id) with
  | none => .error .notFound
  | some b =>
    let b' := applyBookingUpdate b u
    .ok ({ s with
            bookings := s.bookings.map (fun x => if x.id == id then b' else x) },
         b')

/-- The number of active bookings a student holds in a state. -/
def activeBookingsFor (s : HState) (student : Nat) : Nat :=
  (s.bookings.filter (fun b => b.student == student && isActive b)).length

/-- JavaScript `Math.round`: round half toward positive infinity. -/
def jsRound (q : Rat) : Int :=
  Int.floor (q + 1 / 2)

/-- The reviews the `$match` stage of `getRoomRatingSummary` keeps: the
given room's reviews with `status: "approved"`. -/
def approvedFor (reviews : List Review) (roomId : Nat) : List Review :=
  reviews.filter (fun r => r.room == roomId && r.status == .approved)

/-- The `ratingDistribution.forEach` loop: bump the star-count field the
rating addresses (`distribution[rating]++`); the schema restricts ratings
to 1–5, and other values address none of the five keys. -/
def bumpDist (d : Nat × Nat × Nat × Nat × Nat) (rating : Int) :
    Nat × Nat × Nat × Nat × Nat :=
  if rating = 1 then (d.1 + 1, d.2.1, d.2.2.1, d.2.2.2.1, d.2.2.2.2)
  else if rating = 2 then (d.1, d.2.1 + 1, d.2.2.1, d.2.2.2.1, d.2.2.2.2)
  else if rating = 3 then (d.1, d.2.1, d.2.2.1 + 1, d.2.2.2.1, d.2.2.2.2)
  else if rating = 4 then (d.1, d.2.1, d.2.2.1, d.2.2.2.1 + 1, d.2.2.2.2)
  else if rating = 5 then (d.1, d.2.1, d.2.2.1, d.2.2.2.1, d.2.2.2.2 + 1)
  else d

/-- `reviewSchema.statics.getRoomRatingSummary` (`part_002`, lines
261–311).  The aggregation groups the room's approved reviews, computing
`$avg` of `rating`, `$sum: 1`, the `$push`ed rating list, and `$avg` over
a document of the six category fields — which, being non-numeric for
`$avg`, yields `null` (`CatAvgs.nullV`).  With no matching review the JS
function returns the zero-valued summary; otherwise it rounds the average
to one decimal with `Math.round(x * 10) / 10` and folds the pushed ratings
into the `{1..5}` distribution object. -/
def getRoomRatingSummary (reviews : List Review) (roomId : Nat) : RatingSummary :=
  let matched := approvedFor reviews roomId
  if matched.isEmpty then zeroSummary
  else
    let totalReviews := matched.length
    let sum : Int := matched.foldl (fun acc r => acc + r.rating) 0
    let averageRating : Rat := (sum : Rat) / (totalReviews : Rat)
    let d := matched.foldl (fun d r => bumpDist d r.rating) (0, 0, 0, 0, 0)
    { averageRating := (jsRound (averageRating * 10) : Rat) / 10
      totalReviews := totalReviews
      dist1 := d.1, dist2 := d.2.1, dist3 := d.2.2.1
      dist4 := d.2.2.2.1, dist5 := d.2.2.2.2
      categoryAverages := .nullV }

/-- Write a recomputed summary onto a room document, as the
`Room.findByIdAndUpdate` inside the review post-save hook does:
`$set: { rating, totalReviews, ratingSummary }`. -/
def applySummary (summary : RatingSummary) (room : Room) : Room :=
  { room with
    rating := summary.averageRating
    totalReviews := summary.totalReviews
    ratingSummary := summary }

/-- `reviewSchema.post("save")` (`part_002`, lines 314–329): after a review
*document save*, and only when its status is `approved`, recompute the
room's rating summary and write it onto the room.  Mongoose fires this hook
for `Review.create`/`save` but not for `findByIdAndUpdate`-based routes. -/
def reviewPostSave (s : HState) (r : Review) : HState :=
  if r.status = .approved then
    let summary := getRoomRatingSummary s.reviews r.room
    { s with rooms := s.rooms.map fun p =>
        if p.1 == r.room then (p.1, applySummary summary p.2) else p }
  else s

/-- `canStudentReview` (`review routes`, lines 11–47): require a booking
with the given identifier, student, room and `status: "checked-out"`, then
require that no review references that booking yet. -/
def canStudentReview (bookings : List Booking) (reviews : List Review)
    (booking student room : Nat) : Except Err Unit :=
  match bookings.find? (fun b =>
      b.id == booking && b.student == student && b.room == room
        && b.status == BookingStatus.checkedOut) with
  | none => .error .notFound
  | some _ =>
    match reviews.find? (fun r => r.booking == booking) with
    | some _ => .error .conflict
    | none => .ok ()

/-- The request body of `POST /api/reviews`: the fields the handler
destructures, plus the `status` and `isVerified` a caller might supply
(the handler never reads them). -/
structure ReviewInput where
  student : Nat
  room : Nat
  booking : Nat
  rating : Int
  title : String
  comment : String
  categories : Categories := ⟨0, 0, 0, 0, 0, 0⟩
  bodyStatus : Option ReviewStatus := none
  bodyIsVerified : Option Bool := none

/-- The `reviewData` object `POST /api/reviews` builds (lines 86–96):
trimmed title and comment, `isVerified: true` and `status: "approved"`
hard-coded — whatever the caller sent for those two fields is dropped. -/
def buildReviewData (input : ReviewInput) (newId : Nat) : Review :=
  { id := newId
    student := input.student, room := input.room, booking := input.booking
    rating := input.rating
    title := input.title.trim, comment := input.comment.trim
    categories := input.categories
    isVerified := true
    status := .approved }

/-- `POST /api/reviews` (lines 52–130): the `canStudentReview` gate, the
required-field and rating validations, the insert (the unique index on
`booking` would reject a duplicate reference with error 11000), and the
post-save hook that runs on `Review.create`. -/
def createReview (s : HState) (input : ReviewInput) (newId : Nat) :
    Except Err (HState × Review) :=
  match canStudentReview s.bookings s.reviews input.booking input.student input.room with
  | .error e => .error e
  | .ok _ =>
    if input.rating = 0 ∨ input.title = "" ∨ input.comment = "" then
      .error .validationError
    else if input.rating < 1 ∨ input.rating > 5 then .error .validationError
    else if s.reviews.any (fun r => r.booking == input.booking) then
      .error .conflict
    else
      let r := buildReviewData input newId
      let s' := { s with reviews := s.reviews ++ [r] }
      .ok (reviewPostSave s' r, r)

/-- The update body of `PUT /api/reviews/:id`: each field copied into
`updateData` only when truthy. -/
structure ReviewUpdate where
  rating : Option Int := none
  title : Option String := none
  comment : Option String := none
  categories : Option Categories := none

/-- `PUT /api/reviews/:id` (lines 288–337): look the review up, apply the
truthy fields through `findByIdAndUpdate` with `runValidators` (the schema
bounds `rating` to 1–5).  Being an update, not a document save, the
post-save rollup hook does not fire. -/
def updateReview (s : HState) (id : Nat) (u : ReviewUpdate) :
    Except Err (HState × Review) :=
  match s.reviews.find? (fun r => r.id == id) with
  | none => .error .notFound
  | some r =>
    let newRating := jsOr u.rating r.rating
    if newRating < 1 ∨ newRating > 5 then .error .validationError
    else
      let r' := { r with
        rating := newRating
        title := (u.title.map String.trim).getD r.title
        comment := (u.comment.map String.trim).getD r.comment
        categories := u.categories.getD r.categories }
      .ok ({ s with
              reviews := s.reviews.map (fun x => if x.id == id then r' else x) },
           r')

/-- `PATCH /api/reviews/:id/status` (lines 396–441): validate the status
string (the enum type carries that here), then `findByIdAndUpdate` the
review's status — again with no document save, so the rollup hook does not
fire and no room is touched. -/
def patchReviewStatus (s : HState) (id : Nat) (status : ReviewStatus) :
    Except Err (HState × Review) :=
  match s.reviews.find? (fun r => r.id == id) with
  | none => .error .notFound
  | some r =>
    let r' := { r with status := status }
    .ok ({ s with
            reviews := s.reviews.map (fun x => if x.id == id then r' else x) },
         r')

/-- Modelled from the spec: `categoryAverages` as §4.4 words it — "the
per-category mean across reviews where that category is set (>0)" — for
comparison with what the source's aggregation produces.  Categories no
review sets are absent from the object. -/
def specCategoryAverages (matched : List Review) : CatAvgs :=
  let avgOf (name : String) (value : Categories → Int) : List (String × Rat) :=
    let vals := (matched.filter (fun r => value r.categories > 0)).map
      (fun r => ((value r.categories : Int) : Rat))
    if vals.isEmpty then []
    else [(name, vals.foldl (· + ·) 0 / (vals.length : Rat))]
  .objV (avgOf "cleanliness" Categories.cleanliness
    ++ avgOf "comfort" Categories.comfort
    ++ avgOf "location" Categories.location
    ++ avgOf "facilities" Categories.facilities
    ++ avgOf "staff" Categories.staff
    ++ avgOf "valueForMoney" Categories.valueForMoney)

/-- At most one review references any given booking (the unique index on
`reviewSchema`'s `booking` path). -/
def uniqueBookingRefs (reviews : List Review) : Prop :=
  List.Pairwise (fun a b => a.booking ≠ b.booking) reviews

/-- The occupancy invariant of a single room document. -/
def roomInv (r : Room) : Prop :=
  0 ≤ r.currentOccupancy ∧ r.currentOccupancy ≤ r.capacity

/-- Every room in the store satisfies the occupancy invariant. -/
def stateRoomInv (s : HState) : Prop :=
  ∀ p ∈ s.rooms, roomInv p.2

/-! ## Concrete fixtures

Small stores used to evaluate the operations at explicit inputs. -/

/-- An empty two-bed room under maintenance. -/
def maintRoom : Room :=
  { capacity := 2, currentOccupancy := 0, status := .maintenance, price := 100 }

/-- A full two-bed room under maintenance. -/
def maintFullRoom : Room :=
  { capacity := 2, currentOccupancy := 2, status := .maintenance, price := 100 }

/-- An empty, available two-bed room. -/
def availRoom : Room :=
  { capacity := 2, currentOccupancy := 0, status := .available, price := 100 }

/-- A full, occupied single room. -/
def occRoom : Room :=
  { capacity := 1, currentOccupancy := 1, status := .occupied, price := 100 }

/-- A full two-bed room whose status was left `available`. -/
def fullAvailRoom : Room :=
  { capacity := 2, currentOccupancy := 2, status := .available, price := 100 }

/-- A checked-in booking of student 1 in room 1. -/
def bk10 : Booking :=
  { id := 10, student := 1, room := 1, checkInDate := 0
    checkOutDate := 2592000000, duration := 1, totalAmount := 100
    status := .checkedIn }

/-- Store for the double-transition scenario: room 1 full, booking 10
checked in. -/
def S4 : HState :=
  { students := [1], rooms := [(1, occRoom)], bookings := [bk10], reviews := [] }

/-- The `PUT /api/bookings/:id` body `{ status: "checked-out" }`. -/
def U4 : BookingUpdate := { status := some .checkedOut }

/-- `S4` after the first checked-out update. -/
def S4a : HState := { S4 with bookings := [{ bk10 with status := .checkedOut }] }

/-- A confirmed booking of student 1. -/
def bk1 : Booking :=
  { id := 1, student := 1, room := 1, checkInDate := 0
    checkOutDate := 2592000000, duration := 1, totalAmount := 100
    status := .confirmed }

/-- A cancelled booking of the same student 1. -/
def bk2 : Booking :=
  { id := 2, student := 1, room := 1, checkInDate := 0
    checkOutDate := 2592000000, duration := 1, totalAmount := 100
    status := .cancelled }

/-- Store for the single-active-booking scenario: student 1 holds a
confirmed booking (id 1) and a cancelled one (id 2). -/
def S5 : HState :=
  { students := [1], rooms := [(1, occRoom)], bookings := [bk1, bk2]
    reviews := [] }

/-- `S5` after the cancelled booking is updated back to `confirmed`. -/
def S5b : HState :=
  { S5 with
    bookings := [bk1, { bk2 with status := .confirmed }] }

/-- Store for booking creation: student 1, available room 7. -/
def S6 : HState :=
  { students := [1]
    rooms := [(7, { capacity := 2, currentOccupancy := 0, status := .available
                    price := 100 })]
    bookings := [], reviews := [] }

/-- A 60-day booking request that explicitly supplies `totalAmount: 0`. -/
def req6 : BookingRequest :=
  { student := some 1, room := some 7, checkInDate := some 0
    checkOutDate := some (2 * 2592000000), totalAmount := some 0 }

/-- An approved review of room 7 (used with varying ratings). -/
def rev (i : Nat) (rating : Int) : Review :=
  { id := i, student := 1, room := 7, booking := i, rating := rating
    title := "t", comment := "c", status := .approved }

/-- Three approved reviews of room 7 with ratings 5, 4, 3. -/
def demoReviews : List Review := [rev 1 5, rev 2 4, rev 3 3]

/-- An approved review of room 7 whose only set category is
`cleanliness: 4`. -/
def catReview : Review :=
  { id := 1, student := 1, room := 7, booking := 1, rating := 5
    title := "t", comment := "c"
    categories := { cleanliness := 4, comfort := 0, location := 0
                    facilities := 0, staff := 0, valueForMoney := 0 }
    status := .approved }

/-- Store for review creation: student 1 checked out of room 7
(booking 3), no review yet. -/
def S7 : HState :=
  { students := [1]
    rooms := [(7, availRoom)]
    bookings :=
      [{ id := 3, student := 1, room := 7, checkInDate := 0
         checkOutDate := 2592000000, duration := 1, totalAmount := 100
         status := .checkedOut }]
    reviews := [] }

/-- `S6` after one admin occupancy increase on room 7. -/
def S6inc : HState :=
  setRoom S6 7
    { capacity := 2, currentOccupancy := 1, status := .available, price := 100 }

/-- The booking that `createBooking S6 0 req6 99` produces: the supplied
`totalAmount: 0` was discarded in favour of `price * duration = 200`. -/
def B6 : Booking :=
  { id := 99, student := 1, room := 7, checkInDate := 0
    checkOutDate := 5184000000, duration := 2, totalAmount := 200
    status := .confirmed }

/-- `S6` after the booking `B6` is created: room 7 incremented, booking
appended. -/
def S6book : HState :=
  { setRoom S6 7
      { capacity := 2, currentOccupancy := 1, status := .available
        price := 100 } with
    bookings := [B6] }

/-- A review submission for booking 3 that also tries to smuggle in
`status: "pending"` and `isVerified: false`. -/
def input7 : ReviewInput :=
  { student := 1, room := 7, booking := 3, rating := 5
    title := "great", comment := "clean"
    bodyStatus := some .pending, bodyIsVerified := some false }

/-- The review document the create-review route builds from `input7`. -/
def R7 : Review := buildReviewData input7 1

/-- The store `createReview S7 input7 1` produces: review inserted, then
the post-save rollup applied. -/
def S7c : HState := reviewPostSave { S7 with reviews := [R7] } R7

/-- A pending five-star review of room 7. -/
def R9pending : Review :=
  { id := 1, student := 1, room := 7, booking := 3, rating := 5
    title := "t", comment := "c", status := .pending }

/-- Store for the rollup-trigger scenario: room 7 with no rating yet, one
pending five-star review of it. -/
def S9 : HState :=
  { students := [1]
    rooms := [(7, availRoom)]
    bookings := []
    reviews := [R9pending] }

/-- The pending review of `S9` once its status is patched to approved. -/
def R9p : Review :=
  { id := 1, student := 1, room := 7, booking := 3, rating := 5
    title := "t", comment := "c", status := .approved }

/-- `S9` after `PATCH /api/reviews/1/status` to `approved`: the review is
approved, but no room document was written. -/
def S9p : HState := { S9 with reviews := [R9p] }

/-! ## Helper lemmas -/

/-- A successful `room.save()` returns the room unchanged and certifies the
pre-save bound. -/
theorem saveRoom_ok {r r' : Room} (h : saveRoom r = .ok r') :
    r' = r ∧ r.currentOccupancy ≤ r.capacity := by
  unfold saveRoom at h
  split at h
  · exact absurd h (by simp)
  · next hgt => exact ⟨(Except.ok.inj h).symm, not_lt.mp hgt⟩

/-- A successful availability check returns the looked-up room and
certifies its guards. -/
theorem checkRoomAvailability_ok {room? : Option Room} {r : Room}
    (h : checkRoomAvailability room? = .ok r) :
    room? = some r ∧ r.status = .available ∧ r.currentOccupancy < r.capacity := by
  cases room? with
  | none => simp [checkRoomAvailability] at h
  | some room =>
    simp only [checkRoomAvailability] at h
    split at h
    · exact absurd h (by simp)
    · split at h
      · exact absurd h (by simp)
      · next hst hocc =>
        obtain rfl := Except.ok.inj h
        exact ⟨rfl, not_not.mp hst, not_le.mp hocc⟩

/-- What a successful booking-path occupancy increment does to the room. -/
theorem incrementRoomOccupancy_ok {room r' : Room}
    (h : incrementRoomOccupancy room = .ok r') :
    r'.currentOccupancy = room.currentOccupancy + 1 ∧
    r'.currentOccupancy ≤ r'.capacity ∧
    r'.capacity = room.capacity ∧ r'.price = room.price ∧
    r'.status = (if room.currentOccupancy + 1 = room.capacity
      then RoomStatus.occupied else room.status) := by
  unfold incrementRoomOccupancy at h
  obtain ⟨rfl, hle⟩ := saveRoom_ok h
  exact ⟨rfl, hle, rfl, rfl, rfl⟩

/-- What a successful delete-path release does to the room. -/
theorem releaseOnDelete_ok {room r' : Room}
    (h : releaseOnDelete room = .ok r') :
    r'.currentOccupancy = max 0 (room.currentOccupancy - 1) ∧
    r'.currentOccupancy ≤ r'.capacity ∧
    r'.capacity = room.capacity ∧
    r'.status = (if max 0 (room.currentOccupancy - 1) < room.capacity
      then RoomStatus.available else room.status) := by
  unfold releaseOnDelete at h
  obtain ⟨rfl, hle⟩ := saveRoom_ok h
  exact ⟨rfl, hle, rfl, rfl⟩

/-- A room found in an invariant-respecting store satisfies the room
invariant. -/
theorem findRoom_inv {s : HState} {id : Nat} {room : Room}
    (h : stateRoomInv s) (hf : findRoom s id = some room) : roomInv room := by
  unfold findRoom at hf
  cases hfind : s.rooms.find? (fun p => p.1 == id) with
  | none => rw [hfind] at hf; exact absurd hf (by simp)
  | some p =>
    rw [hfind] at hf
    simp at hf
    exact hf ▸ h p (List.mem_of_find?_eq_some hfind)

/-- Writing an invariant-respecting room back preserves the store-wide
invariant. -/
theorem stateRoomInv_setRoom {s : HState} {id : Nat} {r : Room}
    (hs : stateRoomInv s) (hr : roomInv r) : stateRoomInv (setRoom s id r) := by
  intro p hp
  simp only [setRoom, List.mem_map] at hp
  obtain ⟨q, hq, hpq⟩ := hp
  by_cases hid : (q.1 == id) = true
  · rw [if_pos hid] at hpq
    rw [← hpq]
    exact hr
  · rw [if_neg hid] at hpq
    rw [← hpq]
    exact hs q hq

/-- A successful admin occupancy patch yields a room satisfying the
invariant, provided the looked-up room satisfied it. -/
theorem occupancyPatch_inv {room? : Option Room} {action : String} {r' : Room}
    (hinv : ∀ room, room? = some room → roomInv room)
    (h : occupancyPatch room? action = .ok r') : roomInv r' := by
  cases room? with
  | none => simp [occupancyPatch] at h
  | some room =>
    obtain ⟨h0, hcap⟩ := hinv room rfl
    simp only [occupancyPatch] at h
    split at h
    · split at h
      · exact absurd h (by simp)
      · obtain ⟨rfl, hle⟩ := saveRoom_ok h
        exact ⟨by show (0:Int) ≤ room.currentOccupancy + 1; omega, hle⟩
    · split at h
      · split at h
        · exact absurd h (by simp)
        · next hpos =>
          obtain ⟨rfl, hle⟩ := saveRoom_ok h
          refine ⟨?_, hle⟩
          show (0:Int) ≤ room.currentOccupancy - 1
          omega
      · exact absurd h (by simp)

/-! ## C1 -/

/-- C1: after each core operation — the admin occupancy patch, booking
creation and booking deletion — every room of an invariant-respecting
store still satisfies `0 ≤ currentOccupancy ≤ capacity`: none of these
operations persists a room whose occupancy exceeds its capacity or is
negative. -/
theorem room_occupancy_invariant_preserved (s : HState) (h : stateRoomInv s) :
    (∀ id action s', patchOccupancyRoute s id action = .ok s' → stateRoomInv s')
  ∧ (∀ today req newId s' bk,
      createBooking s today req newId = .ok (s', bk) → stateRoomInv s')
  ∧ (∀ id s', deleteBooking s id = .ok s' → stateRoomInv s') := by
  refine ⟨?_, ?_, ?_⟩
  · intro id action s' hok
    unfold patchOccupancyRoute at hok
    split at hok
    · exact absurd hok (by simp)
    · next r hr =>
      obtain rfl := Except.ok.inj hok
      exact stateRoomInv_setRoom h
        (occupancyPatch_inv (fun room hm => findRoom_inv h hm) hr)
  · intro today req newId s' bk hok
    unfold createBooking at hok
    split at hok
    · split at hok
      · exact absurd hok (by simp)
      · split at hok
        · split at hok
          · exact absurd hok (by simp)
          · next roomExists hava =>
            split at hok
            · exact absurd hok (by simp)
            · split at hok
              · exact absurd hok (by simp)
              · next updatedRoom hinc =>
                simp only [Except.ok.injEq, Prod.mk.injEq] at hok
                obtain ⟨hs', -⟩ := hok
                subst hs'
                obtain ⟨hfr, -, -⟩ := checkRoomAvailability_ok hava
                obtain ⟨hocc', hle, -, -, -⟩ := incrementRoomOccupancy_ok hinc
                obtain ⟨h0, -⟩ := findRoom_inv h hfr
                exact stateRoomInv_setRoom h ⟨by omega, hle⟩
        · exact absurd hok (by simp)
    · exact absurd hok (by simp)
  · intro id s' hok
    unfold deleteBooking at hok
    split at hok
    · exact absurd hok (by simp)
    · next b hb =>
      split at hok
      · cases hfr : findRoom s b.room with
        | none =>
          rw [hfr] at hok
          obtain rfl := Except.ok.inj hok
          exact h
        | some room =>
          rw [hfr] at hok
          dsimp only at hok
          cases hrel : releaseOnDelete room with
          | error e => rw [hrel] at hok; exact absurd hok (by simp)
          | ok room' =>
            rw [hrel] at hok
            obtain rfl := Except.ok.inj hok
            obtain ⟨hocc', hle, -, -⟩ := releaseOnDelete_ok hrel
            refine stateRoomInv_setRoom h ⟨?_, hle⟩
            rw [hocc']
            exact le_max_left 0 _
      · obtain rfl := Except.ok.inj hok
        exact h

/-- C1 witness: the invariant holds of the concrete store `S6` and still
holds after an admin occupancy increase on its room. -/
theorem room_occupancy_invariant_preserved_witness :
    stateRoomInv S6 ∧ stateRoomInv S6inc := by
  have hins : stateRoomInv S6 := by
    intro p hp
    simp [S6] at hp
    subst hp
    simp [roomInv]
  exact ⟨hins,
    (room_occupancy_invariant_preserved S6 hins).1 7 "increase" S6inc rfl⟩

/-! ## C2 -/

/-- C2 counterexample: the admin occupancy `increase` branch performs no
status check — on an under-capacity `maintenance` room it succeeds and
increments, instead of failing with `Unavailable` as the claim asserts of
every reserve path. -/
theorem adminIncrease_skips_status_check :
    occupancyPatch (some maintRoom) "increase" =
      .ok { maintRoom with currentOccupancy := 1 } ∧
    occupancyPatch (some maintRoom) "increase" ≠
      Except.error Err.unavailable := by
  refine ⟨rfl, fun hcontr => ?_⟩
  rw [show occupancyPatch (some maintRoom) "increase" =
    Except.ok { maintRoom with currentOccupancy := 1 } from rfl] at hcontr
  exact Except.noConfusion hcontr

/-- C2 amended: the booking-path reserve fails with `NotFound` on an
absent room, `Unavailable` on a non-available room, `Capacity` at full
occupancy, and on success increments the occupancy by one, ending
`occupied` exactly when full; the admin `increase` branch fails with
`NotFound`/`Capacity` the same way but skips the status check entirely,
succeeding on any under-capacity room regardless of its status. -/
theorem reserve_paths_characterization (room? : Option Room) :
    (room? = none → bookingReserve room? = .error .notFound
       ∧ occupancyPatch room? "increase" = .error .notFound)
  ∧ (∀ room, room? = some room →
      (room.status ≠ .available → bookingReserve room? = .error .unavailable)
    ∧ (room.status = .available → room.currentOccupancy ≥ room.capacity →
        bookingReserve room? = .error .capacity)
    ∧ (room.currentOccupancy ≥ room.capacity →
        occupancyPatch room? "increase" = .error .capacity)
    ∧ (room.currentOccupancy < room.capacity →
        occupancyPatch room? "increase" = .ok { room with
          currentOccupancy := room.currentOccupancy + 1
          status := if room.currentOccupancy + 1 = room.capacity
            then .occupied else room.status })
    ∧ (∀ r', bookingReserve room? = .ok r' →
        r'.currentOccupancy = room.currentOccupancy + 1
      ∧ (r'.status = .occupied ↔ r'.currentOccupancy = r'.capacity))) := by
  constructor
  · rintro rfl
    exact ⟨rfl, rfl⟩
  · rintro room rfl
    refine ⟨?_, ?_, ?_, ?_, ?_⟩
    · intro hst
      simp [bookingReserve, checkRoomAvailability, hst]
    · intro hst hocc
      simp [bookingReserve, checkRoomAvailability, hst, hocc]
    · intro hocc
      simp [occupancyPatch, reduceIte, hocc]
    · intro hlt
      have hnot : ¬room.currentOccupancy ≥ room.capacity := not_le.mpr hlt
      have hsave : ¬room.currentOccupancy + 1 > room.capacity := by omega
      simp [occupancyPatch, reduceIte, hnot, saveRoom, hsave]
    · intro r' h
      unfold bookingReserve at h
      cases hc : checkRoomAvailability (some room) with
      | error e => rw [hc] at h; exact absurd h (by simp)
      | ok r0 =>
        rw [hc] at h
        obtain ⟨hsome, hst, -⟩ := checkRoomAvailability_ok hc
        obtain rfl : room = r0 := Option.some.inj hsome
        obtain ⟨hocc, -, hcap, -, hstat⟩ := incrementRoomOccupancy_ok h
        refine ⟨hocc, ?_⟩
        rw [hstat, hocc, hcap]
        by_cases hc2 : room.currentOccupancy + 1 = room.capacity
        · simp [hc2]
        · simp [hc2, hst]

/-- C2 witness: the characterization applied at an absent room, a
maintenance room (booking path), a full available room, an under-capacity
maintenance room (admin path), and one successful booking reserve. -/
theorem reserve_paths_characterization_witness :
    (bookingReserve none = .error .notFound
      ∧ occupancyPatch none "increase" = .error .notFound)
  ∧ bookingReserve (some maintRoom) = .error .unavailable
  ∧ bookingReserve (some fullAvailRoom) = .error .capacity
  ∧ occupancyPatch (some fullAvailRoom) "increase" = .error .capacity
  ∧ occupancyPatch (some maintRoom) "increase" = .ok { maintRoom with
      currentOccupancy := 1,
      status := if (0:Int) + 1 = 2 then .occupied else maintRoom.status }
  ∧ ({ availRoom with
        currentOccupancy := 1
        status := RoomStatus.available } : Room).currentOccupancy =
        availRoom.currentOccupancy + 1 := by
  refine ⟨(reserve_paths_characterization none).1 rfl,
    ((reserve_paths_characterization (some maintRoom)).2 maintRoom rfl).1
      (by decide),
    ((reserve_paths_characterization (some fullAvailRoom)).2 fullAvailRoom
      rfl).2.1 rfl (by decide),
    ((reserve_paths_characterization (some fullAvailRoom)).2 fullAvailRoom
      rfl).2.2.1 (by decide),
    ?_, ?_⟩
  · have := ((reserve_paths_characterization (some maintRoom)).2 maintRoom
      rfl).2.2.2.1 (by decide)
    exact this
  · exact (((reserve_paths_characterization (some availRoom)).2 availRoom
      rfl).2.2.2.2 { availRoom with
        currentOccupancy := 1
        status := RoomStatus.available } rfl).1

/-! ## C3 -/

/-- C3 counterexample: releasing a slot on a full `maintenance` room — by
deleting an active booking or by the admin `decrease` action — overwrites
the status with `available`; maintenance is not sticky. -/
theorem release_clears_maintenance :
    releaseOnDelete maintFullRoom =
      .ok { maintFullRoom with currentOccupancy := 1, status := .available } ∧
    occupancyPatch (some maintFullRoom) "decrease" =
      .ok { maintFullRoom with currentOccupancy := 1, status := .available } :=
  ⟨rfl, rfl⟩

/-- C3 amended: the delete-path release decrements with a floor of 0 and
the admin `decrease` action decrements after rejecting at zero; both set
`status = "available"` whenever the resulting occupancy is below capacity,
for every prior status — `maintenance` included — and leave the status
unchanged otherwise. -/
theorem release_characterization (room : Room) :
    (∀ r', releaseOnDelete room = .ok r' →
        r'.currentOccupancy = max 0 (room.currentOccupancy - 1)
      ∧ (r'.currentOccupancy < r'.capacity → r'.status = .available)
      ∧ (¬r'.currentOccupancy < r'.capacity → r'.status = room.status))
  ∧ (room.currentOccupancy ≤ 0 →
      occupancyPatch (some room) "decrease" = .error .invalidState)
  ∧ (∀ r', occupancyPatch (some room) "decrease" = .ok r' →
        r'.currentOccupancy = room.currentOccupancy - 1
      ∧ (r'.currentOccupancy < r'.capacity → r'.status = .available)
      ∧ (¬r'.currentOccupancy < r'.capacity → r'.status = room.status)) := by
  refine ⟨?_, ?_, ?_⟩
  · intro r' h
    obtain ⟨hocc, hle, hcap, hstat⟩ := releaseOnDelete_ok h
    refine ⟨hocc, ?_, ?_⟩
    · intro hlt
      rw [hstat, if_pos (show max 0 (room.currentOccupancy - 1) < room.capacity
        by omega)]
    · intro hge
      rw [hstat, if_neg (show ¬max 0 (room.currentOccupancy - 1) < room.capacity
        by omega)]
  · intro h0
    simp [occupancyPatch, reduceIte, h0]
  · intro r' h
    simp only [occupancyPatch, String.reduceEq, reduceIte] at h
    split at h
    · exact absurd h (by simp)
    · next h0 =>
      obtain ⟨rfl, hle⟩ := saveRoom_ok h
      refine ⟨rfl, ?_, ?_⟩
      · intro hlt
        exact if_pos (show room.currentOccupancy - 1 < room.capacity from hlt)
      · intro hge
        exact if_neg (show ¬room.currentOccupancy - 1 < room.capacity from hge)

/-- C3 witness: the characterization applied to the full maintenance room
(both release paths) and to an empty room for the zero guard. -/
theorem release_characterization_witness :
    (({ maintFullRoom with
         currentOccupancy := 1
         status := RoomStatus.available } : Room).status = RoomStatus.available)
  ∧ occupancyPatch (some availRoom) "decrease" = .error .invalidState := by
  constructor
  · exact (((release_characterization maintFullRoom).1
      { maintFullRoom with currentOccupancy := 1, status := .available }
      rfl).2.1 (by decide))
  · exact (release_characterization availRoom).2.1 (by decide)

/-! ## C4 -/

/-- C4 counterexample: transitioning booking 10 to `checked-out` twice
through the booking update route succeeds both times — the second call
does not fail with `InvalidState` — and the rooms are untouched by both
calls, so the room slot is never released at all. -/
theorem transition_twice_succeeds_no_release :
    putBooking S4 10 U4 = .ok (S4a, { bk10 with status := .checkedOut })
  ∧ S4a.rooms = S4.rooms
  ∧ putBooking S4a 10 U4 = .ok (S4a, { bk10 with status := .checkedOut })
  ∧ putBooking S4a 10 U4 ≠ Except.error Err.invalidState := by
  refine ⟨rfl, rfl, rfl, fun hcontr => ?_⟩
  rw [show putBooking S4a 10 U4 =
    Except.ok (S4a, { bk10 with status := BookingStatus.checkedOut })
    from rfl] at hcontr
  exact Except.noConfusion hcontr

/-- C4 amended: the booking status-update operation enforces no transition
table: it fails only with `NotFound` when the booking is absent, accepts
any requested status from any current status (so a repeated `checked-out`
update succeeds again instead of failing with `InvalidState`), and never
reads or writes a room, so no occupancy is ever released by a status
transition. -/
theorem putBooking_no_transition_enforcement (s : HState) (id : Nat)
    (u : BookingUpdate) :
    (putBooking s id u = .error .notFound ↔
      s.bookings.find? (fun b => b.id == id) = none)
  ∧ (∀ e, putBooking s id u = .error e → e = .notFound)
  ∧ (∀ s' b', putBooking s id u = .ok (s', b') →
      s'.rooms = s.rooms ∧ ∀ st, u.status = some st → b'.status = st) := by
  unfold putBooking
  cases hfind : s.bookings.find? (fun b => b.id == id) with
  | none =>
    refine ⟨by simp, ?_, ?_⟩
    · intro e he
      exact (Except.error.inj he).symm
    · intro s' b' h
      exact absurd h (by simp)
  | some b =>
    refine ⟨by simp, ?_, ?_⟩
    · intro e he
      exact absurd he (by simp)
    · intro s' b' h
      simp only [Except.ok.injEq, Prod.mk.injEq] at h
      obtain ⟨h1, h2⟩ := h
      subst h1
      subst h2
      exact ⟨rfl, fun st hst => by simp [applyBookingUpdate, hst]⟩

/-- C4 witness: the amended characterization applied to the concrete
double-transition store. -/
theorem putBooking_no_transition_enforcement_witness :
    S4a.rooms = S4.rooms ∧
    ({ bk10 with status := BookingStatus.checkedOut } : Booking).status =
      BookingStatus.checkedOut := by
  have h := (putBooking_no_transition_enforcement S4 10 U4).2.2 S4a
    { bk10 with status := BookingStatus.checkedOut } rfl
  exact ⟨h.1, h.2 BookingStatus.checkedOut rfl⟩

/-! ## C5 -/

/-- C5 counterexample: student 1 has exactly one active booking in `S5`,
yet updating the cancelled booking 2 back to `confirmed` through the
booking update route succeeds and leaves the student with two active
bookings. -/
theorem putBooking_breaks_single_active_invariant :
    activeBookingsFor S5 1 = 1
  ∧ putBooking S5 2 { status := some .confirmed } =
      .ok (S5b, { bk2 with status := .confirmed })
  ∧ activeBookingsFor S5b 1 = 2 := ⟨rfl, rfl, rfl⟩

/-- C5 amended: booking creation alone enforces the single-active rule —
it can only succeed for a student with no prior active booking, the
active-booking check otherwise failing with `Conflict` — but the booking
update route performs no such check (it never returns `Conflict`) and can
reactivate a terminal booking into a second active one. -/
theorem single_active_enforced_only_on_create :
    (∀ s today req newId s' bk,
      createBooking s today req newId = .ok (s', bk) →
      ∀ b ∈ s.bookings, b.student = bk.student → isActive b = false)
  ∧ (∀ s id u, putBooking s id u ≠ Except.error Err.conflict) := by
  constructor
  · intro s today req newId s' bk hok b hb hbst
    unfold createBooking at hok
    split at hok
    · split at hok
      · exact absurd hok (by simp)
      · split at hok
        · split at hok
          · exact absurd hok (by simp)
          · split at hok
            · exact absurd hok (by simp)
            · next hfind =>
              split at hok
              · exact absurd hok (by simp)
              · simp only [Except.ok.injEq, Prod.mk.injEq] at hok
                obtain ⟨-, hbk⟩ := hok
                subst hbk
                have hnone := List.find?_eq_none.mp hfind b hb
                simp only [Bool.and_eq_true, beq_iff_eq, not_and] at hnone
                simp only at hbst
                by_cases hact : isActive b = true
                · exact absurd hact (hnone hbst)
                · exact Bool.not_eq_true _ ▸ hact
        · exact absurd hok (by simp)
    · exact absurd hok (by simp)
  · intro s id u h
    unfold putBooking at h
    split at h
    · exact absurd (Except.error.inj h) (by decide)
    · exact absurd h (by simp)

/-- C5 witness: the amended theorem applied to the concrete stores — the
successful creation of `B6` out of the bookingless `S6`, and the
conflict-free reactivating update on `S5`. -/
theorem single_active_enforced_only_on_create_witness :
    (∀ b ∈ S6.bookings, b.student = B6.student → isActive b = false)
  ∧ putBooking S5 2 { status := some .confirmed } ≠
      Except.error Err.conflict :=
  ⟨single_active_enforced_only_on_create.1 S6 0 req6 99 S6book B6 rfl,
   single_active_enforced_only_on_create.2 S5 2 { status := some .confirmed }⟩

/-! ## C6 -/

/-- C6 counterexample: an explicitly supplied `totalAmount: 0` is not used
unchanged — `totalAmount || price * duration` treats 0 as absent, so the
booking is persisted with the computed `100 * 2 = 200` instead of 0. -/
theorem supplied_zero_totalAmount_overridden :
    req6.totalAmount = some 0
  ∧ createBooking S6 0 req6 99 = .ok (S6book, B6)
  ∧ B6.totalAmount = 200
  ∧ B6.totalAmount ≠ 0 := ⟨rfl, rfl, rfl, by decide⟩

/-- C6 amended: when `duration`/`totalAmount` are absent *or supplied as
0* (JavaScript `||` defaulting), the booking is created with
`duration = ⌈stay-milliseconds / 30 days⌉` and
`totalAmount = room.price × duration`; a supplied nonzero value is used
unchanged. -/
theorem booking_amount_defaulting (s : HState) (today : Int)
    (req : BookingRequest) (newId : Nat) (s' : HState) (bk : Booking)
    (ci co : Int) (rid : Nat) (room : Room)
    (hci : req.checkInDate = some ci) (hco : req.checkOutDate = some co)
    (hrid : req.room = some rid) (hfr : findRoom s rid = some room)
    (hok : createBooking s today req newId = .ok (s', bk)) :
    ((req.duration = none ∨ req.duration = some 0) →
        bk.duration = calculateDuration ci co)
  ∧ (∀ d, req.duration = some d → d ≠ 0 → bk.duration = d)
  ∧ ((req.totalAmount = none ∨ req.totalAmount = some 0) →
        bk.totalAmount = room.price * bk.duration)
  ∧ (∀ a, req.totalAmount = some a → a ≠ 0 → bk.totalAmount = a) := by
  unfold createBooking at hok
  split at hok
  · next student0 room0 ci0 co0 hs0 hr0 hci0 hco0 =>
    rw [hrid] at hr0
    rw [hci] at hci0
    rw [hco] at hco0
    obtain rfl := Option.some.inj hr0
    obtain rfl := Option.some.inj hci0
    obtain rfl := Option.some.inj hco0
    split at hok
    · exact absurd hok (by simp)
    · split at hok
      · split at hok
        · exact absurd hok (by simp)
        · next roomExists hava =>
          obtain ⟨hsome, -, -⟩ := checkRoomAvailability_ok hava
          rw [hfr] at hsome
          obtain rfl := Option.some.inj hsome
          split at hok
          · exact absurd hok (by simp)
          · split at hok
            · exact absurd hok (by simp)
            · simp only [Except.ok.injEq, Prod.mk.injEq] at hok
              obtain ⟨-, hbk⟩ := hok
              subst hbk
              refine ⟨?_, ?_, ?_, ?_⟩
              · rintro (hd | hd) <;> simp [jsOr, hd]
              · intro d hd hd0
                simp [jsOr, hd, hd0]
              · rintro (ha | ha) <;> simp [jsOr, ha]
              · intro a ha ha0
                simp [jsOr, ha, ha0]
      · exact absurd hok (by simp)
  · next h4 =>
    exact absurd hok (by simp)

/-- C6 witness: the defaulting applied to the concrete request `req6`
(absent `duration`, supplied `totalAmount: 0`). -/
theorem booking_amount_defaulting_witness :
    B6.duration = calculateDuration 0 5184000000
  ∧ B6.totalAmount =
      (100 : Int) * B6.duration := by
  have h := booking_amount_defaulting S6 0 req6 99 S6book B6 0 5184000000 7
    { capacity := 2, currentOccupancy := 0, status := .available
      price := 100 }
    rfl rfl rfl rfl rfl
  exact ⟨h.1 (Or.inl rfl), h.2.2.1 (Or.inr rfl)⟩

/-! ## Review-side helper lemmas -/

/-- A successful `canStudentReview` gate certifies the checked-out booking
for the (student, room) pair and the absence of a prior review of that
booking. -/
theorem canStudentReview_ok {bookings : List Booking} {reviews : List Review}
    {booking student room : Nat}
    (h : canStudentReview bookings reviews booking student room = .ok ()) :
    (∃ b ∈ bookings, b.id = booking ∧ b.student = student ∧ b.room = room ∧
        b.status = .checkedOut)
  ∧ ∀ rv ∈ reviews, rv.booking ≠ booking := by
  unfold canStudentReview at h
  split at h
  · exact absurd h (by simp)
  · next b hfind =>
    split at h
    · exact absurd h (by simp)
    · next hnone =>
      constructor
      · refine ⟨b, List.mem_of_find?_eq_some hfind, ?_⟩
        have hp := List.find?_some hfind
        simp only [Bool.and_eq_true, beq_iff_eq] at hp
        exact ⟨hp.1.1.1, hp.1.1.2, hp.1.2, hp.2⟩
      · intro rv hrv
        have hne := List.find?_eq_none.mp hnone rv hrv
        simpa using hne

/-- The post-save hook never changes the review collection. -/
theorem reviewPostSave_reviews (s : HState) (r : Review) :
    (reviewPostSave s r).reviews = s.reviews := by
  unfold reviewPostSave
  split <;> rfl

/-- Updating one keyed room through a conditional map commutes with
keyed lookup. -/
theorem findRoom_map_update (rooms : List (Nat × Room)) (id : Nat)
    (f : Room → Room) :
    ((rooms.map (fun p => if p.1 == id then (p.1, f p.2) else p)).find?
        (fun p => p.1 == id)).map (fun p => p.2) =
      ((rooms.find? (fun p => p.1 == id)).map (fun p => p.2)).map f := by
  induction rooms with
  | nil => rfl
  | cons x xs ih =>
    by_cases h : (x.1 == id) = true
    · rw [List.map_cons, if_pos h]
      simp only [List.find?, h]
      rfl
    · have h' : (x.1 == id) = false := by simpa using h
      rw [List.map_cons, if_neg h]
      simp only [List.find?, h']
      exact ih

/-- The aggregation's running rating sum is the sum of the ratings. -/
theorem foldl_rating_sum (l : List Review) :
    l.foldl (fun acc r => acc + r.rating) 0 = (l.map Review.rating).sum := by
  have key : ∀ (l : List Review) (init : Int),
      l.foldl (fun acc r => acc + r.rating) init =
        init + (l.map Review.rating).sum := by
    intro l
    induction l with
    | nil => simp
    | cons x xs ih =>
      intro init
      simp only [List.foldl_cons, List.map_cons, List.sum_cons, ih]
      omega
  simpa using key l 0

/-- Folding the pushed ratings through the `forEach` bump computes the
per-star counts. -/
theorem bumpDist_foldl (l : List Review) (d : Nat × Nat × Nat × Nat × Nat) :
    l.foldl (fun d r => bumpDist d r.rating) d =
      (d.1 + l.countP (fun r => r.rating == 1),
       d.2.1 + l.countP (fun r => r.rating == 2),
       d.2.2.1 + l.countP (fun r => r.rating == 3),
       d.2.2.2.1 + l.countP (fun r => r.rating == 4),
       d.2.2.2.2 + l.countP (fun r => r.rating == 5)) := by
  induction l generalizing d with
  | nil => simp
  | cons x xs ih =>
    rw [List.foldl_cons, ih]
    clear ih
    simp only [List.countP_cons]
    unfold bumpDist
    split_ifs with h1 h2 h3 h4 h5 <;>
      simp_all <;> omega

/-! ## C7 -/

/-- C7: a review is created only when a checked-out booking with the
referenced identifier exists for the same (student, room) pair, no earlier
review references that booking, the created review references it, and the
one-review-per-booking uniqueness constraint is preserved. -/
theorem review_creation_gated (s : HState) (input : ReviewInput)
    (newId : Nat) (s' : HState) (r : Review)
    (hok : createReview s input newId = .ok (s', r)) :
    (∃ b ∈ s.bookings, b.id = input.booking ∧ b.student = input.student ∧
        b.room = input.room ∧ b.status = .checkedOut)
  ∧ (∀ rv ∈ s.reviews, rv.booking ≠ input.booking)
  ∧ r.booking = input.booking
  ∧ (uniqueBookingRefs s.reviews → uniqueBookingRefs s'.reviews) := by
  unfold createReview at hok
  split at hok
  · exact absurd hok (by simp)
  · next hgate =>
    obtain ⟨hbook, hprior⟩ := canStudentReview_ok hgate
    split at hok
    · exact absurd hok (by simp)
    · split at hok
      · exact absurd hok (by simp)
      · split at hok
        · exact absurd hok (by simp)
        · simp only [Except.ok.injEq, Prod.mk.injEq] at hok
          obtain ⟨hs', hr⟩ := hok
          subst hs'
          subst hr
          refine ⟨hbook, hprior, rfl, ?_⟩
          intro hu
          rw [reviewPostSave_reviews]
          show uniqueBookingRefs (s.reviews ++ [buildReviewData input newId])
          rw [uniqueBookingRefs, List.pairwise_append]
          refine ⟨hu, List.pairwise_singleton _ _, ?_⟩
          intro a ha b hb
          simp only [List.mem_singleton] at hb
          subst hb
          exact hprior a ha

/-- C7 witness: the gate applied to the concrete store `S7` and the
successful creation of `R7`. -/
theorem review_creation_gated_witness :
    (∀ rv ∈ S7.reviews, rv.booking ≠ input7.booking)
  ∧ R7.booking = input7.booking := by
  have h := review_creation_gated S7 input7 1 S7c R7 rfl
  exact ⟨h.2.1, h.2.2.1⟩

/-! ## C8 -/

/-- C8 counterexample: for one approved review whose only set category is
`cleanliness: 4`, the aggregation's `categoryAverages` is `null` — the
`$avg` of a document expression — and not the per-category mean
`{cleanliness: 4}` the claim describes. -/
theorem categoryAverages_not_per_category_mean :
    (getRoomRatingSummary [catReview] 7).categoryAverages = CatAvgs.nullV
  ∧ specCategoryAverages (approvedFor [catReview] 7) =
      CatAvgs.objV [("cleanliness", 4)]
  ∧ (getRoomRatingSummary [catReview] 7).categoryAverages ≠
      specCategoryAverages (approvedFor [catReview] 7) := by
  have h2 : specCategoryAverages (approvedFor [catReview] 7) =
      CatAvgs.objV [("cleanliness", 4)] := by
    simp [specCategoryAverages, approvedFor, catReview]
  refine ⟨rfl, h2, ?_⟩
  rw [h2, show (getRoomRatingSummary [catReview] 7).categoryAverages =
    CatAvgs.nullV from rfl]
  simp

/-- C8 amended: with no approved review of the room the summary is the
zero-valued object; otherwise `totalReviews` counts the approved reviews,
`averageRating` is their mean rounded to one decimal place (half up), the
distribution counts each star value 1–5 — so the approved ratings
[5, 4, 3] yield average 4.0, three reviews and distribution
{1:0, 2:0, 3:1, 4:1, 5:1} — but `categoryAverages` is `null` (the `$avg`
of a document expression), never the per-category mean. -/
theorem rating_summary_characterization :
    (∀ reviews roomId, approvedFor reviews roomId = [] →
        getRoomRatingSummary reviews roomId = zeroSummary)
  ∧ (∀ reviews roomId, approvedFor reviews roomId ≠ [] →
        getRoomRatingSummary reviews roomId =
          { averageRating :=
              (jsRound ((((approvedFor reviews roomId).map Review.rating).sum : Rat)
                / ((approvedFor reviews roomId).length : Rat) * 10) : Rat) / 10
            totalReviews := (approvedFor reviews roomId).length
            dist1 := (approvedFor reviews roomId).countP (fun r => r.rating == 1)
            dist2 := (approvedFor reviews roomId).countP (fun r => r.rating == 2)
            dist3 := (approvedFor reviews roomId).countP (fun r => r.rating == 3)
            dist4 := (approvedFor reviews roomId).countP (fun r => r.rating == 4)
            dist5 := (approvedFor reviews roomId).countP (fun r => r.rating == 5)
            categoryAverages := .nullV })
  ∧ getRoomRatingSummary demoReviews 7 =
      { averageRating := 4, totalReviews := 3, dist1 := 0, dist2 := 0
        dist3 := 1, dist4 := 1, dist5 := 1, categoryAverages := .nullV } := by
  refine ⟨?_, ?_, ?_⟩
  · intro reviews roomId hempty
    simp [getRoomRatingSummary, hempty]
  · intro reviews roomId hne
    have hcond : ¬((approvedFor reviews roomId).isEmpty = true) := by
      simpa [List.isEmpty_iff] using hne
    simp only [getRoomRatingSummary]
    rw [if_neg hcond, foldl_rating_sum, bumpDist_foldl]
    simp
  · simp [getRoomRatingSummary, approvedFor, demoReviews, rev, bumpDist,
      jsRound, zeroSummary]
    norm_num

/-- C8 witness: the characterization applied to a room with no reviews and
to the concrete nonempty review set. -/
theorem rating_summary_characterization_witness :
    getRoomRatingSummary [] 7 = zeroSummary
  ∧ (getRoomRatingSummary demoReviews 7).totalReviews =
      (approvedFor demoReviews 7).length := by
  constructor
  · exact rating_summary_characterization.1 [] 7 rfl
  · rw [rating_summary_characterization.2.1 demoReviews 7 (by decide)]

/-! ## C9 -/

/-- C9 counterexample: approving the pending review through the status
route leaves the room's stored rating at 0 even though the recomputed
summary of the now-approved reviews is 5 — the rollup did not run, because
`findByIdAndUpdate` does not fire the post-save hook. -/
theorem status_patch_skips_rollup :
    patchReviewStatus S9 1 ReviewStatus.approved = .ok (S9p, R9p)
  ∧ (findRoom S9p 7).map Room.rating = some 0
  ∧ (getRoomRatingSummary S9p.reviews 7).averageRating = 5
  ∧ (0 : Rat) ≠ 5 := by
  refine ⟨rfl, rfl, ?_, by norm_num⟩
  simp [getRoomRatingSummary, approvedFor, S9p, R9p, S9, jsRound]
  norm_num

/-- C9 amended: the rollup runs synchronously only on a review *document
save* — review creation recomputes the summary of the new review's room
and writes it onto that room — while the `findByIdAndUpdate`-based update
routes (`PUT /api/reviews/:id` and `PATCH /api/reviews/:id/status`) never
touch any room, and a save of a non-approved review is a no-op for the
room. -/
theorem rollup_only_on_document_save :
    (∀ s input newId s' r, createReview s input newId = .ok (s', r) →
        findRoom s' input.room =
          (findRoom s input.room).map
            (applySummary (getRoomRatingSummary s'.reviews input.room)))
  ∧ (∀ s id st s' r, patchReviewStatus s id st = .ok (s', r) →
      s'.rooms = s.rooms)
  ∧ (∀ s id u s' r, updateReview s id u = .ok (s', r) → s'.rooms = s.rooms)
  ∧ (∀ s r, r.status ≠ .approved → reviewPostSave s r = s) := by
  refine ⟨?_, ?_, ?_, ?_⟩
  · intro s input newId s' r h
    unfold createReview at h
    split at h
    · exact absurd h (by simp)
    · split at h
      · exact absurd h (by simp)
      · split at h
        · exact absurd h (by simp)
        · split at h
          · exact absurd h (by simp)
          · simp only [Except.ok.injEq, Prod.mk.injEq] at h
            obtain ⟨hs', -⟩ := h
            subst hs'
            simp only [reviewPostSave, buildReviewData, if_pos]
            unfold findRoom
            exact findRoom_map_update s.rooms input.room _
  · intro s id st s' r h
    unfold patchReviewStatus at h
    split at h
    · exact absurd h (by simp)
    · simp only [Except.ok.injEq, Prod.mk.injEq] at h
      obtain ⟨hs', -⟩ := h
      subst hs'
      rfl
  · intro s id u s' r h
    unfold updateReview at h
    split at h
    · exact absurd h (by simp)
    · dsimp only at h
      split at h
      · exact absurd h (by simp)
      · simp only [Except.ok.injEq, Prod.mk.injEq] at h
        obtain ⟨hs', -⟩ := h
        subst hs'
        rfl
  · intro s r hne
    unfold reviewPostSave
    rw [if_neg hne]

/-- C9 witness: patching the pending review of `S9` to approved leaves its
rooms untouched, and the post-save hook ignores a pending review. -/
theorem rollup_only_on_document_save_witness :
    S9p.rooms = S9.rooms ∧ reviewPostSave S9 R9pending = S9 := by
  constructor
  · exact rollup_only_on_document_save.2.1 S9 1 ReviewStatus.approved S9p
      R9p rfl
  · exact rollup_only_on_document_save.2.2.2 S9 R9pending (by decide)

/-! ## C10 -/

/-- C10: every review the create-review route persists has
`status = "approved"` and `isVerified = true`, whatever status or
`isVerified` value the caller supplied, so no review created through this
path enters the pending moderation state. -/
theorem created_review_forced_approved (input : ReviewInput) (newId : Nat) :
    (buildReviewData input newId).status = .approved
  ∧ (buildReviewData input newId).isVerified = true
  ∧ ∀ s s' r, createReview s input newId = .ok (s', r) →
      r.status = .approved ∧ r.isVerified = true ∧ r.status ≠ .pending := by
  refine ⟨rfl, rfl, ?_⟩
  intro s s' r h
  unfold createReview at h
  split at h
  · exact absurd h (by simp)
  · split at h
    · exact absurd h (by simp)
    · split at h
      · exact absurd h (by simp)
      · split at h
        · exact absurd h (by simp)
        · simp only [Except.ok.injEq, Prod.mk.injEq] at h
          obtain ⟨-, hr⟩ := h
          subst hr
          exact ⟨rfl, rfl, by simp [buildReviewData]⟩

/-- C10 witness: the concrete submission `input7` asked for
`status: "pending"` and `isVerified: false`, yet the persisted review is
approved and verified. -/
theorem created_review_forced_approved_witness :
    input7.bodyStatus = some ReviewStatus.pending
  ∧ R7.status = ReviewStatus.approved
  ∧ R7.isVerified = true := by
  have h := (created_review_forced_approved input7 1).2.2 S7 S7c R7 rfl
  exact ⟨rfl, h.1, h.2.1⟩

end Hostel
